import Mathlib

/-!
Shallow embedding of src/src/osgEarthDrivers/sky_simple/SimpleSkyNode.cpp
(osgEarth simple-sky driver).

Conventions of the embedding:
- C++ doubles/floats are modelled as exact real numbers (or rationals where
  every operation involved is rational), so float literals such as 1.025f are
  the exact values they denote.
- osg scene-graph nodes are modelled by the data the code reads and writes
  through them (a MatrixTransform becomes a matrix plus a node mask; an
  osg::ref_ptr that may be null becomes an Option).
- External collaborators (the ephemeris, the star-catalog text decoder) are
  parameters of the embedded functions.
-/

open Real

/-- Degrees-to-radians conversion, osg::DegreesToRadians. -/
noncomputable def degToRad (d : ℝ) : ℝ := d * (Real.pi / 180)

/-- A three-component vector, as osg::Vec3 / osg::Vec3d. -/
abbrev Vec3 : Type := ℝ × ℝ × ℝ

/-- Output of s_makeEllipsoidGeometry: a vertex buffer, optional texture
coordinates and normals, and a triangle-list index buffer.  The vertex and
texture-coordinate types are parameters; the abbreviation below instantiates
them at the real vector types. -/
structure EllipsoidGeometryT (V T : Type) where
  verts : List V
  texCoords : Option (List T)
  normals : Option (List V)
  indices : List ℕ

/-- EllipsoidGeometryT at the concrete osg vector types. -/
abbrev EllipsoidGeometry : Type := EllipsoidGeometryT Vec3 (ℝ × ℝ)

/-- Normalize a vector, osg::Vec3::normalize (divides by the norm only when
the norm is positive). -/
noncomputable def normalize3 (v : Vec3) : Vec3 :=
  let n := Real.sqrt (v.1 * v.1 + v.2.1 * v.2.1 + v.2.2 * v.2.2)
  if 0 < n then (v.1 / n, v.2.1 / n, v.2.2 / n) else v

/-- Index buffer of s_makeEllipsoidGeometry (SimpleSkyNode.cpp lines 100-138):
for every latitude row y below latSegments and every longitude column x, two
triangles (six indices) of the quad, the longitude successor wrapping from
lonSegments-1 back to 0.  The indices do not depend on the ellipsoid, so they
are split out as their own (computable) definition. -/
def ellipsoidIndices : List ℕ :=
  let latSegments : ℕ := 100
  let lonSegments : ℕ := 2 * latSegments
  (List.range (latSegments + 1)).flatMap (fun y =>
    (List.range lonSegments).flatMap (fun x =>
      if y < latSegments then
        let x_plus_1 := if x < lonSegments - 1 then x + 1 else 0
        let y_plus_1 := y + 1
        [y * lonSegments + x,
         y_plus_1 * lonSegments + x,
         y * lonSegments + x_plus_1,
         y * lonSegments + x_plus_1,
         y_plus_1 * lonSegments + x,
         y_plus_1 * lonSegments + x_plus_1]
      else []))

/-- s_makeEllipsoidGeometry (SimpleSkyNode.cpp lines 69-146).  The ellipsoid
is represented by its equatorial radius together with its
convertLatLongHeightToXYZ conversion function (lat, lon in radians, height
above the ellipsoid, to Cartesian coordinates). -/
noncomputable def s_makeEllipsoidGeometry
    (conv : ℝ → ℝ → ℝ → Vec3) (radiusEquator : ℝ)
    (outerRadius : ℝ) (genTexCoords : Bool) : EllipsoidGeometry :=
  let hae : ℝ := outerRadius - radiusEquator
  let latSegments : ℕ := 100
  let lonSegments : ℕ := 2 * latSegments
  let segmentSize : ℝ := 180 / (latSegments : ℝ)
  let latOf : ℕ → ℝ := fun y => -90 + segmentSize * (y : ℝ)
  let lonOf : ℕ → ℝ := fun x => -180 + segmentSize * (x : ℝ)
  { verts :=
      (List.range (latSegments + 1)).flatMap (fun y =>
        (List.range lonSegments).map (fun x =>
          conv (degToRad (latOf y)) (degToRad (lonOf x)) hae))
    texCoords :=
      if genTexCoords then
        some ((List.range (latSegments + 1)).flatMap (fun y =>
          (List.range lonSegments).map (fun x =>
            ((lonOf x + 180) / 360, (latOf y + 90) / 180))))
      else none
    normals :=
      if genTexCoords then
        some ((List.range (latSegments + 1)).flatMap (fun y =>
          (List.range lonSegments).map (fun x =>
            normalize3 (conv (degToRad (latOf y)) (degToRad (lonOf x)) hae))))
      else none
    indices := ellipsoidIndices }

/-- Index buffer of s_makeDiscGeometry (SimpleSkyNode.cpp lines 161-178):
fan triangle i is (0, 1 + i_plus_1, 1 + i) with i_plus_1 wrapping from the
last segment back to 0. -/
def discIndices : List ℕ :=
  let segments : ℕ := 48
  (List.range segments).flatMap (fun i =>
    let i_plus_1 := if i < segments - 1 then i + 1 else 0
    [0, 1 + i_plus_1, 1 + i])

/-- s_makeDiscGeometry (SimpleSkyNode.cpp lines 149-181): center vertex plus
48 perimeter vertices at radius * (cos angle, sin angle, 0), the angle
stepping by 360/48 degrees, and the fan index buffer. -/
noncomputable def s_makeDiscGeometry (radius : ℝ) : List Vec3 × List ℕ :=
  let segments : ℕ := 48
  let deltaAngle : ℝ := 360 / (segments : ℝ)
  ((0, 0, 0) ::
     (List.range segments).map (fun (i : ℕ) =>
       let angle := degToRad (deltaAngle * (i : ℝ))
       (radius * Real.cos angle, radius * Real.sin angle, 0)),
   discIndices)

set_option maxRecDepth 8000

/-- C6: for every ellipsoid (conversion function and equatorial radius) and
every outer radius, the ellipsoid mesh builder with latSegments = 100 and
lonSegments = 2 * latSegments produces exactly (latSegments+1) * (2*latSegments)
= 20200 vertices and exactly latSegments * (2*latSegments) * 6 = 120000
triangle-list index entries. -/
theorem ellipsoid_mesh_counts
    (conv : ℝ → ℝ → ℝ → Vec3) (radiusEquator outerRadius : ℝ)
    (genTexCoords : Bool) :
    (s_makeEllipsoidGeometry conv radiusEquator outerRadius genTexCoords).verts.length
      = (100 + 1) * (2 * 100)
    ∧ (s_makeEllipsoidGeometry conv radiusEquator outerRadius genTexCoords).indices.length
      = 100 * (2 * 100) * 6 := by
  constructor
  · have e0 : (s_makeEllipsoidGeometry conv radiusEquator outerRadius genTexCoords).verts
        = (List.range 101).flatMap (fun (y : ℕ) => (List.range 200).map (fun (x : ℕ) =>
            conv (degToRad (-90 + (180 / (100:ℝ)) * (y:ℝ)))
              (degToRad (-180 + (180 / (100:ℝ)) * (x:ℝ)))
              (outerRadius - radiusEquator))) := rfl
    rw [e0, List.length_flatMap]
    have e2 : List.map (List.length ∘ fun (y : ℕ) => (List.range 200).map (fun (x : ℕ) =>
          conv (degToRad (-90 + (180 / (100:ℝ)) * (y:ℝ)))
            (degToRad (-180 + (180 / (100:ℝ)) * (x:ℝ)))
            (outerRadius - radiusEquator))) (List.range 101)
        = List.map (fun (_ : ℕ) => (200:ℕ)) (List.range 101) := by
      refine List.map_congr_left fun y hy => ?_
      simp
    rw [e2, List.map_const']
    simp
  · show ellipsoidIndices.length = 100 * (2 * 100) * 6
    have e1 : ellipsoidIndices
        = (List.range 101).flatMap (fun (y : ℕ) => (List.range 200).flatMap (fun (x : ℕ) =>
            if y < 100 then
              [y * 200 + x, (y + 1) * 200 + x, y * 200 + (if x < 199 then x + 1 else 0),
               y * 200 + (if x < 199 then x + 1 else 0), (y + 1) * 200 + x,
               (y + 1) * 200 + (if x < 199 then x + 1 else 0)]
            else [])) := rfl
    rw [e1, List.length_flatMap]
    have e2 : List.map (List.length ∘ fun (y : ℕ) => (List.range 200).flatMap (fun (x : ℕ) =>
          if y < 100 then
            [y * 200 + x, (y + 1) * 200 + x, y * 200 + (if x < 199 then x + 1 else 0),
             y * 200 + (if x < 199 then x + 1 else 0), (y + 1) * 200 + x,
             (y + 1) * 200 + (if x < 199 then x + 1 else 0)]
          else [])) (List.range 101)
        = List.map (fun (y : ℕ) => if y < 100 then (1200:ℕ) else 0) (List.range 101) := by
      refine List.map_congr_left fun y hy => ?_
      simp only [Function.comp_apply, List.length_flatMap]
      by_cases h : y < 100
      · simp [h, Function.comp_def, List.map_const']
      · simp [h, Function.comp_def]
    rw [e2]
    decide

/-- C9: for every radius, the disc mesh builder produces exactly 1 + 48
vertices (center plus 48 perimeter vertices at radius * (cos t, sin t, 0)
with t = i * 2*pi/48 radians, i.e. stepping by 360/48 degrees) and exactly
48 triangles; triangle i is (center, perimeter i+1, perimeter i) with the
last segment wrapping back to perimeter vertex 0. -/
theorem disc_mesh_fan (radius : ℝ) :
    (s_makeDiscGeometry radius).1.length = 1 + 48
    ∧ (s_makeDiscGeometry radius).2.length = 48 * 3
    ∧ (s_makeDiscGeometry radius).2
        = (List.range 48).flatMap (fun i => [0, 1 + (i + 1) % 48, 1 + i])
    ∧ (s_makeDiscGeometry radius).1
        = (0, 0, 0) :: (List.range 48).map (fun (i : ℕ) =>
            (radius * Real.cos ((i : ℝ) * (Real.pi / 24)),
             radius * Real.sin ((i : ℝ) * (Real.pi / 24)), 0)) := by
  refine ⟨by simp [s_makeDiscGeometry], ?_, ?_, ?_⟩
  · show discIndices.length = 48 * 3
    decide
  · show discIndices = (List.range 48).flatMap (fun i => [0, 1 + (i + 1) % 48, 1 + i])
    decide
  · have e0 : (s_makeDiscGeometry radius).1
        = (0, 0, 0) :: (List.range 48).map (fun (i : ℕ) =>
            (radius * Real.cos (degToRad ((360 / ((48:ℕ):ℝ)) * (i:ℝ))),
             radius * Real.sin (degToRad ((360 / ((48:ℕ):ℝ)) * (i:ℝ))), 0)) := rfl
    rw [e0]
    refine congrArg (List.cons _) (List.map_congr_left fun i hi => ?_)
    have ha : degToRad ((360 / ((48:ℕ):ℝ)) * (i:ℝ)) = (i : ℝ) * (Real.pi / 24) := by
      simp only [degToRad]
      push_cast
      ring
    rw [ha]

/-- The named scattering parameter set pushed into the shared state set by
makeSceneLighting (SimpleSkyNode.cpp lines 582-636): one field per
atmos_* uniform. -/
structure AtmosParamsT (R : Type) where
  invWavelength : R × R × R
  innerRadius : R
  innerRadius2 : R
  outerRadius : R
  outerRadius2 : R
  krESun : R
  kmESun : R
  kr4PI : R
  km4PI : R
  scale : R
  scaleDepth : R
  scaleOverScaleDepth : R
  g : R
  g2 : R
  nSamples : ℤ
  fSamples : R
  weather : R

/-- AtmosParamsT at the real scalars of the shader uniforms. -/
abbrev AtmosParams : Type := AtmosParamsT ℝ

/-- SimpleSkyNode::makeSceneLighting (SimpleSkyNode.cpp lines 582-636):
derives every scattering uniform from the inner and outer radius and the
fixed constants. -/
noncomputable def makeSceneLighting (innerRadius outerRadius : ℝ) : AtmosParams :=
  let r_wl : ℝ := (0.65 : ℝ) ^ (4 : ℕ)
  let g_wl : ℝ := (0.57 : ℝ) ^ (4 : ℕ)
  let b_wl : ℝ := (0.475 : ℝ) ^ (4 : ℕ)
  let rgb_wl : Vec3 := (1 / r_wl, 1 / g_wl, 1 / b_wl)
  let kr : ℝ := 0.0025
  let kr4PI : ℝ := kr * 4 * Real.pi
  let km : ℝ := 0.0015
  let km4PI : ℝ := km * 4 * Real.pi
  let eSun : ℝ := 15.0
  let mPhase : ℝ := -0.095
  let rayleighScaleDepth : ℝ := 0.25
  let samples : ℤ := 2
  let weather : ℝ := 1.0
  let scale : ℝ := 1 / (outerRadius - innerRadius)
  { invWavelength := rgb_wl
    innerRadius := innerRadius
    innerRadius2 := innerRadius * innerRadius
    outerRadius := outerRadius
    outerRadius2 := outerRadius * outerRadius
    krESun := kr * eSun
    kmESun := km * eSun
    kr4PI := kr4PI
    km4PI := km4PI
    scale := scale
    scaleDepth := rayleighScaleDepth
    scaleOverScaleDepth := scale / rayleighScaleDepth
    g := mPhase
    g2 := mPhase * mPhase
    nSamples := samples
    fSamples := (samples : ℝ)
    weather := weather }

/-- Radius derivation of SimpleSkyNode::initialize (SimpleSkyNode.cpp lines
216-219) followed by makeSceneLighting: the scattering parameters as a
function of the inner radius (the ellipsoid polar radius) alone. -/
noncomputable def scatteringOfInnerRadius (ri : ℝ) : AtmosParams :=
  let innerRadius := ri
  let outerRadius := innerRadius * 1.025
  makeSceneLighting innerRadius outerRadius

/-- C7: the scattering parameter set is a pure function of the inner radius
alone (identical inner radii give identical parameter sets), with
outer radius = 1.025 * Ri, Scale = 1 / (Ro - Ri), the derived scalars
Kr*ESun, Km*ESun, Kr*4*pi, Km*4*pi, Scale/RayleighScaleDepth and MPhase^2
from the fixed constants, and the wavelength-inverse vector the componentwise
inverse of (0.65, 0.57, 0.475) raised to the 4th power. -/
theorem scattering_params_spec (ri : ℝ) :
    (∀ ri2 : ℝ, ri = ri2 → scatteringOfInnerRadius ri = scatteringOfInnerRadius ri2)
    ∧ (scatteringOfInnerRadius ri).outerRadius = 1.025 * ri
    ∧ (scatteringOfInnerRadius ri).scale
        = 1 / ((scatteringOfInnerRadius ri).outerRadius - ri)
    ∧ (scatteringOfInnerRadius ri).krESun = 0.0025 * 15
    ∧ (scatteringOfInnerRadius ri).kmESun = 0.0015 * 15
    ∧ (scatteringOfInnerRadius ri).kr4PI = 0.0025 * 4 * Real.pi
    ∧ (scatteringOfInnerRadius ri).km4PI = 0.0015 * 4 * Real.pi
    ∧ (scatteringOfInnerRadius ri).scaleOverScaleDepth
        = (scatteringOfInnerRadius ri).scale / 0.25
    ∧ (scatteringOfInnerRadius ri).g2 = (-0.095 : ℝ) ^ (2 : ℕ)
    ∧ (scatteringOfInnerRadius ri).invWavelength
        = (((0.65 : ℝ) ^ (4 : ℕ))⁻¹, ((0.57 : ℝ) ^ (4 : ℕ))⁻¹, ((0.475 : ℝ) ^ (4 : ℕ))⁻¹)
    ∧ (scatteringOfInnerRadius ri).nSamples = 2 := by
  refine ⟨fun ri2 h => by rw [h], ?_, ?_, ?_, ?_, ?_, ?_, ?_, ?_, ?_, ?_⟩ <;>
    · simp only [scatteringOfInnerRadius, makeSceneLighting]
      try norm_num
      try ring

/-- Witness for C7 at the concrete inner radius 6378137 of the spec's
end-to-end scenario. -/
theorem scattering_params_spec_witness :
    scatteringOfInnerRadius 6378137 = scatteringOfInnerRadius 6378137
    ∧ (scatteringOfInnerRadius 6378137).outerRadius = 1.025 * 6378137 :=
  ⟨(scattering_params_spec 6378137).1 6378137 rfl, (scattering_params_spec 6378137).2.1⟩

/-- osg::clampBetween: clamp a value to the closed interval, low bound first. -/
noncomputable def clampBetween (v lo hi : ℝ) : ℝ :=
  if v < lo then lo else if v > hi then hi else v

/-- Dot product of two osg vectors (operator* of osg::Vec3). -/
noncomputable def dot3 (a b : Vec3) : ℝ :=
  a.1 * b.1 + a.2.1 * b.2.1 + a.2.2 * b.2.2

/-- Tail of the autoAmbience block of SimpleSkyNode::traverse (SimpleSkyNode.cpp
lines 280-293) after the eye-sun dot product has been formed: clamp the
deviation and map it linearly to the ambient intensity. -/
noncomputable def ambFromDev (d : ℝ) : ℝ :=
  let minAmb : ℝ := 0.2
  let maxAmb : ℝ := 0.92
  let minDev : ℝ := -0.2
  let maxDev : ℝ := 0.75
  let dev := clampBetween d minDev maxDev
  let r := (dev - minDev) / (maxDev - minDev)
  minAmb + r * (maxAmb - minAmb)

/-- Ambient intensity computed by the autoAmbience block of
SimpleSkyNode::traverse from the raw eye point and light position: both are
normalized, dotted, then fed to the clamp and linear map. -/
noncomputable def traverseAmbient (eye sun : Vec3) : ℝ :=
  ambFromDev (dot3 (normalize3 eye) (normalize3 sun))

/-- The ambient color the autoAmbience block stores into the active light:
the ambient intensity replicated across RGB with alpha 1. -/
noncomputable def traverseAmbientColor (eye sun : Vec3) : ℝ × ℝ × ℝ × ℝ :=
  (traverseAmbient eye sun, traverseAmbient eye sun, traverseAmbient eye sun, 1)

/-- C8: with auto-ambience enabled, the ambient intensity is the linear map of
deviation = clamp(eye dot sun, -0.2, 0.75) onto the interval from 0.2 to 0.92,
replicated across RGB; the midpoint deviation 0.275 yields the midpoint
intensity 0.56. -/
theorem auto_ambience_linear :
    (∀ eye sun : Vec3, traverseAmbientColor eye sun
        = (traverseAmbient eye sun, traverseAmbient eye sun, traverseAmbient eye sun, 1))
    ∧ (∀ d : ℝ, ambFromDev d
        = 0.2 + (clampBetween d (-0.2) 0.75 - (-0.2)) * ((0.92 - 0.2) / (0.75 - (-0.2))))
    ∧ (∀ d : ℝ, 0.2 ≤ ambFromDev d ∧ ambFromDev d ≤ 0.92)
    ∧ ambFromDev 0.275 = 0.56 := by
  have hclamp : ∀ d : ℝ, -0.2 ≤ clampBetween d (-0.2) 0.75
      ∧ clampBetween d (-0.2) 0.75 ≤ 0.75 := by
    intro d
    by_cases h1 : d < -0.2
    · simp only [clampBetween, if_pos h1]
      norm_num
    · by_cases h2 : d > 0.75
      · simp only [clampBetween, if_neg h1, if_pos h2]
        norm_num
      · simp only [clampBetween, if_neg h1, if_neg h2]
        constructor <;> linarith
  refine ⟨fun eye sun => rfl, ?_, ?_, ?_⟩
  · intro d
    show 0.2 + (clampBetween d (-0.2) 0.75 - (-0.2)) / (0.75 - (-0.2)) * (0.92 - 0.2)
        = 0.2 + (clampBetween d (-0.2) 0.75 - (-0.2)) * ((0.92 - 0.2) / (0.75 - (-0.2)))
    ring
  · intro d
    obtain ⟨hl, hr⟩ := hclamp d
    have e : 0.2 + (clampBetween d (-0.2) 0.75 - (-0.2)) / (0.75 - (-0.2)) * (0.92 - 0.2)
        = 0.2 + (clampBetween d (-0.2) 0.75 + 0.2) * (72 / 95) := by
      ring
    constructor
    · show 0.2 ≤ 0.2 + (clampBetween d (-0.2) 0.75 - (-0.2)) / (0.75 - (-0.2)) * (0.92 - 0.2)
      rw [e]
      nlinarith [hl, hr]
    · show 0.2 + (clampBetween d (-0.2) 0.75 - (-0.2)) / (0.75 - (-0.2)) * (0.92 - 0.2) ≤ 0.92
      rw [e]
      nlinarith [hl, hr]
  · show 0.2 + (clampBetween 0.275 (-0.2) 0.75 - (-0.2)) / (0.75 - (-0.2)) * (0.92 - 0.2)
        = 0.56
    norm_num [clampBetween]

/-- One decoded star-catalog record (SimpleSkyNode::StarData); the textual
decoder itself is an external collaborator, so records arrive already parsed.
Magnitudes are rationals standing for the exact values of C++ doubles. -/
structure StarDataT (Q : Type) where
  name : String
  right_ascension : Q
  declination : Q
  magnitude : Q
deriving DecidableEq

/-- StarDataT at the rational magnitudes used throughout. -/
abbrev StarData : Type := StarDataT ℚ

/-- Record-retention loop shared by SimpleSkyNode::parseStarFile (lines
954-970) and SimpleSkyNode::getDefaultStars (lines 928-940): each decoded
record is appended to the output, then popped again when its magnitude lies
below the minimum-magnitude threshold. -/
def filterStars (minStarMagnitude : ℚ) (records : List StarData) : List StarData :=
  records.foldl (fun out_stars star =>
    let out2 := out_stars ++ [star]
    if star.magnitude < minStarMagnitude then out2.dropLast else out2) []

theorem filterStars_eq_filter (m : ℚ) (records : List StarData) :
    filterStars m records
      = records.filter (fun s => decide (m ≤ s.magnitude)) := by
  have key : ∀ (l : List StarData) (acc : List StarData),
      l.foldl (fun out_stars star =>
        let out2 := out_stars ++ [star]
        if star.magnitude < m then out2.dropLast else out2) acc
      = acc ++ l.filter (fun s => decide (m ≤ s.magnitude)) := by
    intro l
    induction l with
    | nil => intro acc; simp
    | cons s t ih =>
      intro acc
      rw [List.foldl_cons]
      by_cases h : s.magnitude < m
      · have h2 : ¬ m ≤ s.magnitude := not_le.mpr h
        have hstep : (let out2 := acc ++ [s]
            if s.magnitude < m then out2.dropLast else out2) = acc := by
          simp [h]
        rw [hstep, ih acc, List.filter_cons]
        simp [h2]
      · have h2 : m ≤ s.magnitude := not_lt.mp h
        have hstep : (let out2 := acc ++ [s]
            if s.magnitude < m then out2.dropLast else out2) = acc ++ [s] := by
          simp [h]
        rw [hstep, ih (acc ++ [s]), List.filter_cons]
        simp [h2]
  simpa [filterStars] using key records []

/-- C4 amended: every record retained by the magnitude filter satisfies
magnitude >= m, and the filter retains exactly the records with
magnitude >= m; in particular with threshold -1.0 the records with
magnitude >= -1.0 are retained and brighter records (magnitude < -1.0) are
still dropped, so -1.0 does not disable the filter. -/
theorem star_filter_spec (m : ℚ) (records : List StarData) :
    (∀ s, s ∈ filterStars m records → m ≤ s.magnitude)
    ∧ filterStars m records = records.filter (fun s => decide (m ≤ s.magnitude))
    ∧ filterStars (-1) records
        = records.filter (fun s => decide ((-1 : ℚ) ≤ s.magnitude)) := by
  refine ⟨?_, filterStars_eq_filter m records, filterStars_eq_filter (-1) records⟩
  intro s hs
  rw [filterStars_eq_filter] at hs
  simpa using (List.mem_filter.mp hs).2

/-- Witness for C4 (amended): a record at the threshold is retained and the
retention bound applies to it. -/
theorem star_filter_spec_witness :
    (-2 : ℚ) ≤ (StarDataT.mk "W" 0 0 (-2)).magnitude :=
  (star_filter_spec (-2) [StarDataT.mk "W" 0 0 (-2)]).1
    (StarDataT.mk "W" 0 0 (-2)) (by decide)

/-- Counterexample for C4 as stated: with threshold -1.0 a record of
magnitude -2 (brighter than -1) is dropped, so not every record of the input
sequence is retained. -/
theorem star_filter_minus_one_drops :
    filterStars (-1) [StarDataT.mk "BrightStar" 0 0 (-2)] = []
    ∧ filterStars (-1) [StarDataT.mk "BrightStar" 0 0 (-2)]
        ≠ [StarDataT.mk "BrightStar" 0 0 (-2)] := by
  constructor <;> decide

/-- Largest finite IEEE-754 double, the exact value of DBL_MAX. -/
def DBL_MAX : ℚ := (2 ^ 53 - 1) * 2 ^ 971

/-- Smallest positive normalized IEEE-754 double, the exact value of DBL_MIN
(a tiny positive number, not the most negative double). -/
def DBL_MIN : ℚ := 1 / 2 ^ 1022

/-- Minimum-magnitude scan of SimpleSkyNode::buildStarGeometry (lines
852-867): minMag starts at DBL_MAX and is lowered by every smaller
magnitude. -/
def buildStarMinMag (stars : List StarData) : ℚ :=
  stars.foldl (fun minMag s => if s.magnitude < minMag then s.magnitude else minMag) DBL_MAX

/-- Maximum-magnitude scan of SimpleSkyNode::buildStarGeometry (lines
852-867): maxMag starts at DBL_MIN (a tiny positive value) and is raised by
every larger magnitude. -/
def buildStarMaxMag (stars : List StarData) : ℚ :=
  stars.foldl (fun maxMag s => if maxMag < s.magnitude then s.magnitude else maxMag) DBL_MIN

/-- The divisor maxMag - minMag of the per-star grayscale computation
of SimpleSkyNode::buildStarGeometry (line 872); the C++ divides by it with no
guard against zero. -/
def starColorDivisor (stars : List StarData) : ℚ :=
  buildStarMaxMag stars - buildStarMinMag stars

/-- Grayscale color channel per star, (magnitude - minMag) / (maxMag - minMag)
(SimpleSkyNode.cpp line 872); in this rational model division by zero yields
zero where the C++ computes an undefined float. -/
def starColors (stars : List StarData) : List ℚ :=
  stars.map (fun s => (s.magnitude - buildStarMinMag stars) / starColorDivisor stars)

theorem foldl_minScan_allEq (m : ℚ) :
    ∀ (l : List StarData), l ≠ [] → (∀ s ∈ l, s.magnitude = m) → ∀ a : ℚ,
      l.foldl (fun acc s => if s.magnitude < acc then s.magnitude else acc) a = min m a := by
  intro l
  induction l with
  | nil => intro hne; exact absurd rfl hne
  | cons s t ih =>
    intro _ hall a
    have hs : s.magnitude = m := hall s (List.mem_cons_self s t)
    have hstep : (if s.magnitude < a then s.magnitude else a) = min m a := by
      rw [hs, min_def]
      split_ifs <;> linarith
    rw [List.foldl_cons, hstep]
    rcases t with _ | ⟨u, t2⟩
    · simp
    · have hall2 : ∀ x ∈ u :: t2, x.magnitude = m := fun x hx =>
        hall x (List.mem_cons_of_mem s hx)
      rw [ih (by simp) hall2 (min m a), ← min_assoc, min_self]

theorem foldl_maxScan_allEq (m : ℚ) :
    ∀ (l : List StarData), l ≠ [] → (∀ s ∈ l, s.magnitude = m) → ∀ a : ℚ,
      l.foldl (fun acc s => if acc < s.magnitude then s.magnitude else acc) a = max m a := by
  intro l
  induction l with
  | nil => intro hne; exact absurd rfl hne
  | cons s t ih =>
    intro _ hall a
    have hs : s.magnitude = m := hall s (List.mem_cons_self s t)
    have hstep : (if a < s.magnitude then s.magnitude else a) = max m a := by
      rw [hs, max_def]
      split_ifs <;> linarith
    rw [List.foldl_cons, hstep]
    rcases t with _ | ⟨u, t2⟩
    · simp
    · have hall2 : ∀ x ∈ u :: t2, x.magnitude = m := fun x hx =>
        hall x (List.mem_cons_of_mem s hx)
      rw [ih (by simp) hall2 (max m a), ← max_assoc, max_self]

/-- C10 amended: for a nonempty star list whose records all share one
magnitude m (below DBL_MAX), the color divisor maxMag - minMag is zero
precisely when m is at least DBL_MIN; because maxMag is seeded with DBL_MIN
(the smallest positive double, not the most negative one), a common magnitude
below DBL_MIN - in particular any single negative-magnitude record - leaves
the nonzero divisor DBL_MIN - m, and only common magnitudes at or above
DBL_MIN make the unguarded division ill-defined. -/
theorem star_color_divisor_allEq (l : List StarData) (m : ℚ)
    (hne : l ≠ []) (hall : ∀ s ∈ l, s.magnitude = m) (hmax : m < DBL_MAX) :
    starColorDivisor l = (if DBL_MIN ≤ m then 0 else DBL_MIN - m)
    ∧ (DBL_MIN ≤ m → starColorDivisor l = 0)
    ∧ (m < DBL_MIN → starColorDivisor l ≠ 0) := by
  have hmin : buildStarMinMag l = m := by
    rw [buildStarMinMag, foldl_minScan_allEq m l hne hall DBL_MAX,
      min_eq_left (le_of_lt hmax)]
  have hmaxm : buildStarMaxMag l = max m DBL_MIN := by
    rw [buildStarMaxMag, foldl_maxScan_allEq m l hne hall DBL_MIN]
  have hdiv : starColorDivisor l = (if DBL_MIN ≤ m then 0 else DBL_MIN - m) := by
    rw [starColorDivisor, hmin, hmaxm, max_def]
    by_cases h1 : m ≤ DBL_MIN
    · rw [if_pos h1]
      by_cases h2 : DBL_MIN ≤ m
      · rw [if_pos h2]
        have hEq : m = DBL_MIN := le_antisymm h1 h2
        rw [hEq]
        ring
      · rw [if_neg h2]
    · rw [if_neg h1, if_pos (le_of_lt (not_le.mp h1))]
      ring
  refine ⟨hdiv, fun hge => by rw [hdiv, if_pos hge], fun hlt => ?_⟩
  rw [hdiv, if_neg (not_le.mpr hlt)]
  exact sub_ne_zero.mpr (ne_of_gt hlt)

/-- Counterexample for C10 as stated: a single-record list (all records
trivially share one magnitude) whose magnitude -2 lies below DBL_MIN has a
nonzero color divisor, because maxMag is seeded with the positive DBL_MIN and
never lowered; so it is not true that every same-magnitude list makes the
divisor zero. -/
theorem star_color_divisor_counterexample :
    starColorDivisor [StarDataT.mk "S" 0 0 (-2)] ≠ 0 := by
  norm_num [starColorDivisor, buildStarMaxMag, buildStarMinMag, DBL_MIN, DBL_MAX]

/-- Witness for C10 (amended) at a concrete single-record list with positive
magnitude 2, where the divisor is genuinely zero. -/
theorem star_color_divisor_allEq_witness :
    starColorDivisor [StarDataT.mk "A" 0 0 2]
      = (if DBL_MIN ≤ (2 : ℚ) then 0 else DBL_MIN - 2) :=
  (star_color_divisor_allEq [StarDataT.mk "A" 0 0 2] 2 (by simp) (by simp)
    (by norm_num [DBL_MAX])).1

/-- A 3x3 real matrix, modelling the rotation part of osg::Matrixd. -/
abbrev Mat3 : Type := Matrix (Fin 3) (Fin 3) ℝ

/-- Rotation about the z (polar) axis by an angle in radians, as built by
osg::Matrixd::rotate(angle, 0, 0, 1) (row-vector convention). -/
noncomputable def rotateZ (angle : ℝ) : Mat3 :=
  Matrix.of ![![Real.cos angle, Real.sin angle, 0],
              ![-Real.sin angle, Real.cos angle, 0],
              ![0, 0, 1]]

/-- A simulated date/time; the only part of osgEarth::DateTime this driver
reads is hours(), the floating-point hours of the day. -/
structure DateTimeT (R : Type) where
  hours : R

/-- DateTimeT at real hours. -/
abbrev DateTime : Type := DateTimeT ℝ

/-- The data the driver reads and writes through an osg::Light; the color
type (an RGBA quadruple) is a parameter. -/
structure LightT (C : Type) where
  lightNum : ℕ
  position : C
  ambient : C
  diffuse : C
  specular : C

/-- LightT at real RGBA quadruples. -/
abbrev Light : Type := LightT (ℝ × ℝ × ℝ × ℝ)

/-- The data the driver reads and writes through an osg::MatrixTransform:
its matrix and its node mask (~0 = fully visible, 0 = hidden). -/
structure TransformNode (M : Type) where
  matrix : M
  nodeMask : ℕ

/-- The all-ones 32-bit node mask written by setNodeMask(~0). -/
def allOnesMask : ℕ := 4294967295

/-- SimpleSkyNode::PerViewData: the per-viewport state.  osg::ref_ptr members
that can be null are Options; matrices that only ever hold translations are
stored as their translation vector. -/
structure PerViewDataT (V M D L : Type) where
  light : Option L
  lightPos : V
  lightPosUniform : Option V
  sunXform : Option (TransformNode V)
  sunMatrix : V
  moonXform : Option (TransformNode V)
  moonMatrix : V
  starsXform : Option (TransformNode M)
  starsMatrix : M
  date : D

/-- PerViewDataT at the concrete osg types: translation vectors, the stars
rotation matrix, the date/time and the light. -/
abbrev PerViewData : Type := PerViewDataT Vec3 Mat3 DateTime Light

/-- The external ephemeris collaborator; the date and vector types are
parameters. -/
structure EphemerisT (D V : Type) where
  getSunPositionECEF : D → V
  getMoonPositionECEF : D → V

/-- EphemerisT at the concrete date/time and vector types. -/
abbrev Ephemeris : Type := EphemerisT DateTime Vec3

/-- The SimpleSkyNode state the registry claims touch: the default (template)
per-view data, the viewport registry _perViewData (an association list keyed
by the opaque viewport handle, modelling std::map<osg::View*, PerViewData>),
the shared simulated date/time of the SkyNode base, the visibility flags, and
the radii scalars.  Iteration order of the std::map is modelled by list
order. -/
structure SkyStateT (P D R : Type) where
  defaultPerViewData : P
  perViewData : List (ℕ × P)
  dateTime : D
  sunVisible : Bool
  moonVisible : Bool
  starsVisible : Bool
  autoAmbience : Bool
  innerRadius : R
  outerRadius : R
  sunDistance : R

/-- SkyStateT at the concrete per-view data, date/time and real scalars. -/
abbrev SkyState : Type := SkyStateT PerViewData DateTime ℝ

/-- Lookup in the viewport registry (std::map::find). -/
def mapLookup {α : Type} (k : ℕ) : List (ℕ × α) → Option α
  | [] => none
  | (k2, v2) :: t => if k = k2 then some v2 else mapLookup k t

/-- Keyed insert-or-replace in the viewport registry (the net effect of
std::map::operator[] followed by assigning every field): an existing key is
replaced in place, a new key is appended. -/
def mapSet {α : Type} (k : ℕ) (v : α) : List (ℕ × α) → List (ℕ × α)
  | [] => [(k, v)]
  | (k2, v2) :: t => if k = k2 then (k, v) :: t else (k2, v2) :: mapSet k v t

/-- Componentwise scaling, for translate(sunDistance * lightPos). -/
def scale3 (s : ℝ) (v : Vec3) : Vec3 := (s * v.1, s * v.2.1, s * v.2.2)

/-- pos / pos.length(): division of a vector by its norm with no zero guard,
as used for the light-direction uniform. -/
noncomputable def vecDivLen (v : Vec3) : Vec3 :=
  let l := Real.sqrt (v.1 * v.1 + v.2.1 * v.2.1 + v.2.2 * v.2.2)
  (v.1 / l, v.2.1 / l, v.2.2 / l)

/-- SimpleSkyNode::setSunPosition(PerViewData&, const osg::Vec3&)
(SimpleSkyNode.cpp lines 493-511): store the light position, update the
light, refresh the direction uniform, and retranslate the sun transform. -/
noncomputable def setSunPositionData (sunDistance : ℝ) (data : PerViewData)
    (pos : Vec3) : PerViewData :=
  { data with
    lightPos := pos
    light := data.light.map (fun lt => { lt with position := (pos.1, pos.2.1, pos.2.2, 0) })
    lightPosUniform := data.lightPosUniform.map (fun _ => vecDivLen pos)
    sunXform := data.sunXform.map (fun t => { t with matrix := scale3 sunDistance pos }) }

/-- SimpleSkyNode::setMoonPosition(PerViewData&, const osg::Vec3d&)
(SimpleSkyNode.cpp lines 529-537): when the moon transform exists, store and
apply the new translation. -/
def setMoonPositionData (data : PerViewData) (pos : Vec3) : PerViewData :=
  match data.moonXform with
  | some t => { data with moonMatrix := pos, moonXform := some { t with matrix := pos } }
  | none => data

/-- Apply an update to the value of every registry entry, keeping its key:
the shape of every for-loop over _perViewData in the source. -/
def mapEntry {α β : Type} (f : α → β) : ℕ × α → ℕ × β := fun kd => (kd.1, f kd.2)

/-- SimpleSkyNode::setSunPosition(pos, view) with view = null (SimpleSkyNode.cpp
lines 462-475): apply to the default data and to every registry entry. -/
noncomputable def setSunPositionAll (st : SkyState) (pos : Vec3) : SkyState :=
  { st with
    defaultPerViewData := setSunPositionData st.sunDistance st.defaultPerViewData pos
    perViewData := st.perViewData.map
      (mapEntry (fun d => setSunPositionData st.sunDistance d pos)) }

/-- SimpleSkyNode::setMoonPosition(pos, view) with view = null (SimpleSkyNode.cpp
lines 477-491). -/
def setMoonPositionAll (st : SkyState) (pos : Vec3) : SkyState :=
  { st with
    defaultPerViewData := setMoonPositionData st.defaultPerViewData pos
    perViewData := st.perViewData.map (mapEntry (fun d => setMoonPositionData d pos)) }

/-- The star-field rotation angle rot_z = -pi + 2*pi*(hours/24) of
SimpleSkyNode::onSetDateTime (SimpleSkyNode.cpp lines 330-331). -/
noncomputable def starsRotZ (hours : ℝ) : ℝ :=
  -Real.pi + (2 * Real.pi) * (hours / 24)

/-- SimpleSkyNode::onSetDateTime (SimpleSkyNode.cpp lines 314-354), which the
driver always enters with view = null: normalize the ephemeris sun position
and fan it out, fan out the moon position, then store the star rotation
matrix rotate(-rot_z, 0,0,1) and the new date into the default data and every
registry entry (each entry's stars transform also gets the matrix; the
default's stars transform is not touched). -/
noncomputable def onSetDateTime (eph : Ephemeris) (st : SkyState) : SkyState :=
  let dt := st.dateTime
  let sunPos := normalize3 (eph.getSunPositionECEF dt)
  let moonPos := eph.getMoonPositionECEF dt
  let st1 := setSunPositionAll st sunPos
  let st2 := setMoonPositionAll st1 moonPos
  let rot_z := starsRotZ dt.hours
  let starsMatrix := rotateZ (-rot_z)
  { st2 with
    defaultPerViewData := { st2.defaultPerViewData with
      starsMatrix := starsMatrix
      date := dt }
    perViewData := st2.perViewData.map (mapEntry (fun d =>
      { d with
        starsMatrix := starsMatrix
        starsXform := d.starsXform.map (fun t => { t with matrix := starsMatrix })
        date := dt })) }

/-- SimpleSkyNode::attach (SimpleSkyNode.cpp lines 356-410): look up or create
the registry entry for the handle, rebuild every field of it from the default
template (cloned light with the given light number, default light position,
owned sun/moon/stars transforms seeded from the default matrices and masked
by the current visibility flags, cloned direction uniform, default date),
then run onSetDateTime. -/
noncomputable def attach (eph : Ephemeris) (st : SkyState)
    (view lightNum : ℕ) : SkyState :=
  let dflt := st.defaultPerViewData
  let data : PerViewData :=
    { light := dflt.light.map (fun lt => { lt with lightNum := lightNum })
      lightPos := dflt.lightPos
      lightPosUniform := dflt.lightPosUniform
      sunXform := some { matrix := scale3 st.sunDistance dflt.lightPos,
                         nodeMask := if st.sunVisible then allOnesMask else 0 }
      sunMatrix := scale3 st.sunDistance dflt.lightPos
      moonXform := some { matrix := dflt.moonMatrix,
                          nodeMask := if st.moonVisible then allOnesMask else 0 }
      moonMatrix := dflt.moonMatrix
      starsXform := some { matrix := dflt.starsMatrix,
                           nodeMask := if st.starsVisible then allOnesMask else 0 }
      starsMatrix := dflt.starsMatrix
      date := dflt.date }
  onSetDateTime eph { st with perViewData := mapSet view data st.perViewData }

/-- Registry resolution of SimpleSkyNode::traverse (SimpleSkyNode.cpp lines
268-277): find the per-view data for the current view; when the handle is
unknown fall back to the first stored entry (begin()); on an empty registry
the C++ dereferences the end iterator, modelled here as none. -/
def resolveForTraversal (st : SkyState) (view : ℕ) : Option PerViewData :=
  match mapLookup view st.perViewData with
  | some d => some d
  | none => st.perViewData.head?.map Prod.snd

/-- SimpleSkyNode::onSetStarsVisible (SimpleSkyNode.cpp lines 540-552): only
when the default data's stars transform is non-null, write the visibility
mask into the default's stars transform and into every registry entry's. -/
def onSetStarsVisible (st : SkyState) : SkyState :=
  let visible := st.starsVisible
  match st.defaultPerViewData.starsXform with
  | some t =>
    { st with
      defaultPerViewData := { st.defaultPerViewData with
        starsXform := some { t with nodeMask := if visible then allOnesMask else 0 } }
      perViewData := st.perViewData.map (fun kd =>
        (kd.1, { kd.2 with
          starsXform := kd.2.starsXform.map (fun u =>
            { u with nodeMask := if visible then allOnesMask else 0 }) })) }
  | none => st

/-- Modelled from the spec: SkyNode::setStarsVisible of the base class is not
under src/; per the spec's VisibilityControl contract it stores the flag and
fires the onSetStarsVisible hook implemented by this driver. -/
def setStarsVisible (st : SkyState) (visible : Bool) : SkyState :=
  onSetStarsVisible { st with starsVisible := visible }

/-- SimpleSkyNode::initialize (SimpleSkyNode.cpp lines 200-245) restricted to
the state the registry claims touch: build the default light and direction
uniform, derive the radii from the ellipsoid polar radius, create the default
sun transform (makeSun) and moon transform (makeMoon, masked off when the
moon texture failed to load, which also forces the moon-visible flag off);
makeStars creates the shared star geometry but never assigns the default
data's _starsXform, so that ref_ptr stays null; the registry starts empty and
onSetDateTime runs last.  The initial date/time, visibility flags and
moon-texture outcome are parameters of the surrounding SkyNode/options state
that is not under src/. -/
noncomputable def initializeSky (eph : Ephemeris) (radiusPolar : ℝ)
    (dt0 : DateTime) (moonImageOk sunVis moonVis starsVis : Bool) : SkyState :=
  let lightPos : Vec3 := (0, 1, 0)
  let innerRadius := radiusPolar
  let outerRadius := innerRadius * 1.025
  let sunDistance := innerRadius * 12000
  let dfltLight : Light :=
    { lightNum := 0
      position := (0, 1, 0, 0)
      ambient := (0.2, 0.2, 0.2, 2.0)
      diffuse := (1, 1, 1, 1)
      specular := (0, 0, 0, 1) }
  let dfltInit : PerViewData :=
    { light := some dfltLight
      lightPos := lightPos
      lightPosUniform := some (vecDivLen lightPos)
      sunXform := some { matrix := scale3 sunDistance lightPos, nodeMask := allOnesMask }
      sunMatrix := (0, 0, 0)
      moonXform := some { matrix := eph.getMoonPositionECEF dt0,
                          nodeMask := if moonImageOk then allOnesMask else 0 }
      moonMatrix := (0, 0, 0)
      starsXform := none
      starsMatrix := (1 : Mat3)
      date := dt0 }
  let st0 : SkyState :=
    { defaultPerViewData := dfltInit
      perViewData := []
      dateTime := dt0
      sunVisible := sunVis
      moonVisible := moonVis && moonImageOk
      starsVisible := starsVis
      autoAmbience := false
      innerRadius := innerRadius
      outerRadius := outerRadius
      sunDistance := sunDistance }
  onSetDateTime eph st0

theorem mapLookup_mapSet_self {α : Type} (k : ℕ) (v : α) (l : List (ℕ × α)) :
    mapLookup k (mapSet k v l) = some v := by
  induction l with
  | nil => simp [mapSet, mapLookup]
  | cons hd t ih =>
    obtain ⟨k2, v2⟩ := hd
    by_cases h : k = k2
    · subst h
      simp [mapSet, mapLookup]
    · simp [mapSet, mapLookup, h, ih]

theorem mapSet_length_of_isSome {α : Type} (k : ℕ) (v : α) (l : List (ℕ × α))
    (h : (mapLookup k l).isSome = true) :
    (mapSet k v l).length = l.length := by
  induction l with
  | nil => simp [mapLookup] at h
  | cons hd t ih =>
    obtain ⟨k2, v2⟩ := hd
    by_cases he : k = k2
    · subst he
      simp [mapSet]
    · have h2 : (mapLookup k t).isSome = true := by
        simpa [mapLookup, he] using h
      simp [mapSet, he, ih h2]

theorem mapLookup_map {α β : Type} (k : ℕ) (f : α → β) (l : List (ℕ × α)) :
    mapLookup k (l.map (mapEntry f)) = (mapLookup k l).map f := by
  induction l with
  | nil => simp [mapLookup]
  | cons hd t ih =>
    obtain ⟨k2, v2⟩ := hd
    by_cases h : k = k2
    · subst h
      simp [mapLookup, mapEntry]
    · simp [mapLookup, mapEntry, h, ih]

/-- C1 amended: at traversal time a registered handle resolves to its own
entry; an unregistered handle resolves to the first stored registry entry
when at least one viewport has been attached; but the registry does not
contain the default state, it is empty right after initialization, and an
unregistered handle then resolves to nothing (the C++ dereferences the end
iterator instead of returning a default entry). -/
theorem resolve_for_traversal_spec (st : SkyState) (view : ℕ) :
    (∀ d, mapLookup view st.perViewData = some d →
        resolveForTraversal st view = some d)
    ∧ (mapLookup view st.perViewData = none → st.perViewData ≠ [] →
        ∃ d, resolveForTraversal st view = some d ∧ d ∈ st.perViewData.map Prod.snd)
    ∧ (st.perViewData = [] → resolveForTraversal st view = none)
    ∧ (∀ (eph : Ephemeris) (radiusPolar : ℝ) (dt0 : DateTime)
        (moonImageOk sunVis moonVis starsVis : Bool),
        (initializeSky eph radiusPolar dt0 moonImageOk sunVis moonVis starsVis).perViewData
          = []) := by
  refine ⟨?_, ?_, ?_, ?_⟩
  · intro d h
    simp [resolveForTraversal, h]
  · intro hnone hne
    rcases hl : st.perViewData with _ | ⟨hd, t⟩
    · exact absurd hl hne
    · have hnone2 : mapLookup view (hd :: t) = none := by
        rw [← hl]
        exact hnone
      refine ⟨hd.2, ?_, ?_⟩
      · simp [resolveForTraversal, hl, hnone2]
      · simp
  · intro hl
    simp [resolveForTraversal, hl, mapLookup]
  · intro eph radiusPolar dt0 moonImageOk sunVis moonVis starsVis
    rfl

/-- Fixed test ephemeris for the concrete states below. -/
noncomputable def testEphemeris : Ephemeris :=
  { getSunPositionECEF := fun _ => (0, 1, 0)
    getMoonPositionECEF := fun _ => (1, 0, 0) }

/-- The state right after SimpleSkyNode::initialize with polar radius 6356752
and a noon date/time, before any viewport is attached. -/
noncomputable def initState : SkyState :=
  initializeSky testEphemeris 6356752 ⟨12⟩ true true true true

/-- initState after attaching viewport handle 1 on light number 7. -/
noncomputable def attachedState : SkyState := attach testEphemeris initState 1 7

/-- Counterexample for C1 as stated: right after initialization, before any
viewport has been attached, the registry holds no entry (the default state is
not a registry entry), so traversal resolution for an unrecognized handle
finds nothing rather than some existing entry. -/
theorem resolve_unattached_registry_empty :
    resolveForTraversal initState 0 = none := rfl

/-- Witness for C1 (amended): on the empty post-initialization registry the
resolution fails, and a registered handle resolves to its own entry. -/
theorem resolve_for_traversal_spec_witness :
    resolveForTraversal initState 3 = none
    ∧ resolveForTraversal attachedState 1 = mapLookup 1 attachedState.perViewData := by
  constructor
  · exact (resolve_for_traversal_spec initState 3).2.2.1 rfl
  · rcases hl : mapLookup 1 attachedState.perViewData with _ | d
    · have hs : (mapLookup 1 attachedState.perViewData).isSome = true := rfl
      rw [hl] at hs
      simp at hs
    · exact (resolve_for_traversal_spec attachedState 1).1 d hl

/-- C2 (code bug in the source): the default state's stars transform is never
created, so onSetStarsVisible's guard fails and setting stars invisible
changes no node mask at all: the registered viewport's star transform keeps
the all-ones mask and the whole registry is left untouched, although the
flag itself goes false. -/
theorem stars_visibility_toggle_noop :
    attachedState.defaultPerViewData.starsXform = none
    ∧ (setStarsVisible attachedState false).starsVisible = false
    ∧ (setStarsVisible attachedState false).perViewData.map
        (fun kd => kd.2.starsXform.map TransformNode.nodeMask)
      = [some allOnesMask]
    ∧ (setStarsVisible attachedState false).perViewData
        = attachedState.perViewData := by
  exact ⟨rfl, rfl, rfl, rfl⟩

/-- Counterexample for C3 as stated: with hoursOfDay = 12 the star rotation
angle -pi + 2*pi*(12/24) equals 0, not pi. -/
theorem stars_rotation_at_noon_counterexample :
    starsRotZ 12 = 0 ∧ starsRotZ 12 ≠ Real.pi := by
  have h : starsRotZ 12 = 0 := by
    show -Real.pi + (2 * Real.pi) * ((12 : ℝ) / 24) = 0
    ring
  refine ⟨h, ?_⟩
  rw [h]
  exact fun hh => Real.pi_ne_zero hh.symm

/-- C3 amended: on every date/time change the rotation angle about the polar
axis is rot_z = -pi + 2*pi*(hoursOfDay/24), and the matrix stored in the
default state and in every registered viewport state is the rotation by the
negated angle, rotate(-rot_z, 0,0,1); at hoursOfDay = 12 the angle is 0 (not
pi), making the stored matrix the rotation by 0. -/
theorem on_set_date_time_stars (eph : Ephemeris) (st : SkyState) :
    (onSetDateTime eph st).defaultPerViewData.starsMatrix
        = rotateZ (-(starsRotZ st.dateTime.hours))
    ∧ (onSetDateTime eph st).perViewData.map (fun kd => kd.2.starsMatrix)
        = List.replicate st.perViewData.length (rotateZ (-(starsRotZ st.dateTime.hours)))
    ∧ starsRotZ 12 = 0 := by
  refine ⟨rfl, ?_, ?_⟩
  · simp [onSetDateTime, setSunPositionAll, setMoonPositionAll, List.map_map,
      Function.comp_def, mapEntry, List.map_const']
  · show -Real.pi + (2 * Real.pi) * ((12 : ℝ) / 24) = 0
    ring

/-- C5: re-attaching an already-registered viewport handle leaves the
registry size unchanged, and the date/time stored for that viewport - which
the propagation invariant keeps equal to the shared clock - is the same
before and after the second attach. -/
theorem attach_reattach (eph : Ephemeris) (st : SkyState) (view lightNum : ℕ)
    (hreg : (mapLookup view st.perViewData).isSome = true)
    (hdate : (mapLookup view st.perViewData).map PerViewDataT.date = some st.dateTime) :
    (attach eph st view lightNum).perViewData.length = st.perViewData.length
    ∧ (mapLookup view (attach eph st view lightNum).perViewData).map PerViewDataT.date
        = (mapLookup view st.perViewData).map PerViewDataT.date := by
  constructor
  · simp only [attach, onSetDateTime, setSunPositionAll, setMoonPositionAll,
      List.length_map]
    exact mapSet_length_of_isSome view _ st.perViewData hreg
  · simp only [attach, onSetDateTime, setSunPositionAll, setMoonPositionAll]
    rw [mapLookup_map, mapLookup_map, mapLookup_map, mapLookup_mapSet_self, hdate]
    simp

/-- Witness for C5 at the concrete attached state: re-attaching handle 1
keeps the registry size and the stored date/time. -/
theorem attach_reattach_witness :
    (attach testEphemeris attachedState 1 7).perViewData.length
        = attachedState.perViewData.length
    ∧ (mapLookup 1 (attach testEphemeris attachedState 1 7).perViewData).map
        PerViewDataT.date
      = (mapLookup 1 attachedState.perViewData).map PerViewDataT.date :=
  attach_reattach testEphemeris attachedState 1 7 rfl rfl
